import Mathlib

/-!
Shallow embedding of the hypeduel-sdk core: the `MatchClient` connection
session and the `HypeDuelSDK.handleWebhook` dispatch entry point (the sdk.ts
revision that handles both `start_match` and `request_teams` webhooks).

Modelling conventions.
* JS objects are records; the `Map<string, MatchClient>` registry is an
  association list, `set` of a fresh key appending at the tail.
* Side effects on the transport and on registered event handlers are returned
  as an explicit `Effect` list, in the order the source performs them.
* `jwt.verify`, the transport open outcome and the user callbacks are external
  collaborators of the SDK and enter as oracle parameters (`Oracles`).
* The tracked state object is shared mutable state between the caller and the
  session; it is modelled as a reference (a `Nat` cell id) that the interval
  callback reads through a heap argument at the moment it fires.
* JS numbers carry no arithmetic in any verified property and are embedded as
  `Int`; JS falsiness of a possibly-missing string field is `= ""`.
-/

namespace HypeDuelSdk

/-- JSON values, as produced by JSON.parse on inbound transport data. -/
inductive Json where
  | null
  | bool (b : Bool)
  | num (n : Int)
  | str (s : String)
  | arr (elems : List Json)
  | obj (fields : List (String × Json))

/-- JS `typeof v === 'object'`: true for objects, arrays and `null`. -/
def jsTypeofIsObject : Json → Bool
  | .obj _ => true
  | .arr _ => true
  | .null => true
  | _ => false

/-- JS `v === null`. -/
def jsIsNull : Json → Bool
  | .null => true
  | _ => false

/-- 3D vector (types.ts `Vector3`). -/
structure Vector3 where
  x : Int
  y : Int
  z : Int
deriving DecidableEq, Repr

/-- Quaternion (types.ts `Quaternion`). -/
structure Quaternion where
  x : Int
  y : Int
  z : Int
  w : Int
deriving DecidableEq, Repr

/-- Transform data for game objects (types.ts `Transform`). -/
structure Transform where
  id : Int
  position : Vector3
  rotation : Quaternion
deriving DecidableEq, Repr

/-- Game state bag (types.ts `State`); the open index signature for arbitrary
extra JSON properties is not modelled, only the declared fields. -/
structure StateBag where
  scores : List (String × Int)
  announcedEvents : List String
  time : Option Int
deriving DecidableEq, Repr

/-- Single simulation frame (types.ts `SimFrame`). -/
structure SimFrame where
  transforms : List Transform
  state : Option StateBag
  timeSinceLastFrame : Int
deriving DecidableEq, Repr

/-- Outbound message union (types.ts `OutgoingMessage`), restricted to the
variants the `MatchClient` implementation actually constructs: `authenticate`,
`init_frames`, `end_frames`, `scene_frames`. The remaining union members are
never built by the embedded code. -/
inductive OutgoingMessage where
  | authenticate (token : String)
  | initFrames
  | endFrames
  | sceneFrames (frames : List SimFrame)
deriving DecidableEq, Repr

/-- Session event names (`MatchClientEvents` keys). -/
inductive EventName where
  | connect
  | close
  | error
deriving DecidableEq, Repr

/-- The `eventHandlers : Map<EventName, Function[]>` of a session. Handlers are
opaque effectful functions; they are identified by `Nat` tokens, kept in
registration order. A key never registered is the empty list. -/
structure EventHandlers where
  connectHs : List Nat
  closeHs : List Nat
  errorHs : List Nat
deriving DecidableEq, Repr

def EventHandlers.get (hs : EventHandlers) : EventName → List Nat
  | .connect => hs.connectHs
  | .close => hs.closeHs
  | .error => hs.errorHs

def EventHandlers.add (hs : EventHandlers) (e : EventName) (h : Nat) : EventHandlers :=
  match e with
  | .connect => { hs with connectHs := hs.connectHs ++ [h] }
  | .close => { hs with closeHs := hs.closeHs ++ [h] }
  | .error => { hs with errorHs := hs.errorHs ++ [h] }

/-- Observable side effects of session operations, in execution order. -/
inductive Effect where
  | transportOpenReq (url : String)
  | transportSend (m : OutgoingMessage)
  | transportClose
  | invokeHandler (e : EventName) (h : Nat)
deriving DecidableEq, Repr

/-- The `MatchClient` connection session state. `websocket` is the connection
handle (a `Nat` token; `none` until `connect()` constructs one or after
`disconnect()` nulls it). `trackedState` is the reference stored by
`trackState` (a heap cell id). `stateIntervalId` is the interval timer handle;
the real interval duration is real time and is outside the model. -/
structure MatchClient where
  authToken : String
  matchId : String
  wsUrl : String
  websocket : Option Nat
  connected : Bool
  messageQueue : List OutgoingMessage
  eventHandlers : EventHandlers
  stateIntervalId : Option Nat
  trackedState : Option Nat
deriving DecidableEq, Repr

/-- Effects of `emit(event, ...)`: invoke each registered handler for the
event, in registration order (no-op when none are registered). -/
def MatchClient.emitEffects (c : MatchClient) (e : EventName) : List Effect :=
  (c.eventHandlers.get e).map (Effect.invokeHandler e)

/-- The `_send(message)` method: queue the message when not connected or the
socket handle is absent; otherwise write it to the transport. (The transport
write is modelled as not throwing, so the `catch` that would re-emit a send
failure as an `error` event is never taken.) -/
def MatchClient.send (c : MatchClient) (m : OutgoingMessage) : MatchClient × List Effect :=
  if !c.connected || c.websocket.isNone then
    ({ c with messageQueue := c.messageQueue ++ [m] }, [])
  else
    (c, [Effect.transportSend m])

/-- The private `authenticate()` method. -/
def MatchClient.authenticate (c : MatchClient) : MatchClient × List Effect :=
  c.send (.authenticate c.authToken)

/-- `beginMatch()`: enqueue/send `init_frames`. -/
def MatchClient.beginMatch (c : MatchClient) : MatchClient × List Effect :=
  c.send .initFrames

/-- `sendStateUpdate(frames)`: enqueue/send `scene_frames`. -/
def MatchClient.sendStateUpdate (c : MatchClient) (frames : List SimFrame) :
    MatchClient × List Effect :=
  c.send (.sceneFrames frames)

/-- `endMatch()`: enqueue/send `end_frames`. -/
def MatchClient.endMatch (c : MatchClient) : MatchClient × List Effect :=
  c.send .endFrames

/-- One iteration body of the `flushMessageQueue` while loop: shift the head
off the queue and `_send` it. -/
def MatchClient.flushFuel : Nat → MatchClient → MatchClient × List Effect
  | 0, c => (c, [])
  | n + 1, c =>
    match c.messageQueue with
    | [] => (c, [])
    | m :: rest =>
      let step := MatchClient.send { c with messageQueue := rest } m
      let next := MatchClient.flushFuel n step.1
      (next.1, step.2 ++ next.2)

/-- `flushMessageQueue()`: the source loops `while (queue.length > 0)`,
shifting and `_send`ing each message. It is invoked only from the transport
open handler, where `connected` is true and a socket handle is present, so
every `_send` in the loop writes directly and the loop runs exactly once per
initially queued message; the fuel equals that bound. -/
def MatchClient.flushMessageQueue (c : MatchClient) : MatchClient × List Effect :=
  MatchClient.flushFuel c.messageQueue.length c

/-- The transport `open` handler registered by `connect()`: set the connected
flag, send the authentication message, flush the queue, emit `connect`. -/
def MatchClient.handleOpen (c : MatchClient) : MatchClient × List Effect :=
  let c1 : MatchClient := { c with connected := true }
  let a := c1.authenticate
  let f := a.1.flushMessageQueue
  (f.1, a.2 ++ f.2 ++ f.1.emitEffects .connect)

/-- The transport `close` handler registered by `connect()`: clear the
connected flag and emit `close`. -/
def MatchClient.handleCloseEvent (c : MatchClient) : MatchClient × List Effect :=
  let c1 : MatchClient := { c with connected := false }
  (c1, c1.emitEffects .close)

/-- `connect()`: construct the socket (handle `sock`), then either the `open`
event fires (promise resolves) or the `error` event fires (emit `error`,
promise rejects). The Boolean result is whether the promise resolved. -/
def MatchClient.connectAttempt (c : MatchClient) (sock : Nat) (ok : Bool) :
    Bool × MatchClient × List Effect :=
  let c1 : MatchClient := { c with websocket := some sock }
  if ok then
    let o := c1.handleOpen
    (true, o.1, Effect.transportOpenReq c.wsUrl :: o.2)
  else
    (false, c1, Effect.transportOpenReq c.wsUrl :: c1.emitEffects .error)

/-- `handleMessage(data)`: the inbound transport handler. `none` stands for
data on which `JSON.parse` threw, in which case the `catch` block emits an
`error` event; a parsed non-object value (or `null`) is ignored; parsed
objects are handled internally with no event emission. -/
def MatchClient.handleMessage (c : MatchClient) (d : Option Json) :
    MatchClient × List Effect :=
  match d with
  | none => (c, c.emitEffects .error)
  | some m =>
    if !jsTypeofIsObject m || jsIsNull m then
      (c, [])
    else
      (c, [])

/-- `trackState(state, intervalMs)`: clear any existing interval, store the
state reference, and arm a fresh interval timer (handle `newTimerId`). -/
def MatchClient.trackState (c : MatchClient) (stateRef : Nat) (_intervalMs : Int)
    (newTimerId : Nat) : MatchClient :=
  { c with trackedState := some stateRef, stateIntervalId := some newTimerId }

/-- One firing of the interval callback armed by `trackState`. A cleared
interval never fires, hence the `stateIntervalId` guard; the callback itself
re-checks `trackedState` and sends the current contents of the tracked cell,
read through `heap` at the moment of firing. -/
def MatchClient.timerTick (c : MatchClient) (heap : Nat → SimFrame) :
    MatchClient × List Effect :=
  if c.stateIntervalId.isSome then
    match c.trackedState with
    | some r => c.sendStateUpdate [heap r]
    | none => (c, [])
  else
    (c, [])

/-- `on(event, handler)`: append the handler for the event. -/
def MatchClient.on (c : MatchClient) (e : EventName) (h : Nat) : MatchClient :=
  { c with eventHandlers := c.eventHandlers.add e h }

/-- `disconnect()`: clear the tracking interval and tracked state if armed,
then close and null the socket if present and clear the connected flag. -/
def MatchClient.disconnect (c : MatchClient) : MatchClient × List Effect :=
  let c1 : MatchClient :=
    if c.stateIntervalId.isSome then
      { c with stateIntervalId := none, trackedState := none }
    else
      c
  if c1.websocket.isSome then
    ({ c1 with websocket := none, connected := false }, [Effect.transportClose])
  else
    (c1, [])

/-- `isConnected()`. -/
def MatchClient.isConnected (c : MatchClient) : Bool :=
  c.connected

/-- The transport writes among a list of effects, in order. -/
def transportWrites (es : List Effect) : List OutgoingMessage :=
  es.filterMap fun e =>
    match e with
    | .transportSend m => some m
    | _ => none

/-- Agent of a team (types.ts `GameMatchTeamAgent`; the `metadata` record of
arbitrary JSON is not modelled). -/
structure GameMatchTeamAgent where
  id : String
  count : Int
deriving DecidableEq, Repr

/-- Team returned by the team-roster provider (types.ts `GameMatchTeam`). -/
structure GameMatchTeam where
  id : String
  name : String
  agents : List GameMatchTeamAgent
deriving DecidableEq, Repr

/-- Webhook call type tag; `other` covers any unrecognised `callType` string
the runtime payload may carry. -/
inductive CallType where
  | startMatch
  | requestTeams
  | other (s : String)
deriving DecidableEq, Repr

/-- Inbound webhook payload. The union of `StartMatchWebhookPayload` and
`RequestTeamsWebhookPayload` is flattened: the handler reads each field
dynamically, and a field a runtime payload lacks is the falsy `""`. -/
structure WebhookPayload where
  callType : CallType
  jwtData : String
  matchId : String
  authToken : String
  wsUrl : String
deriving DecidableEq, Repr

/-- Decoded JWT claim set returned by a successful `jwt.verify`. Only the
`matchId` claim is ever of interest; the handler discards the whole set. -/
structure JwtClaims where
  claimedMatchId : Option String
deriving DecidableEq, Repr

/-- SDK configuration (types.ts `SDKConfig`). The optional callbacks are
external collaborators; only their presence matters to control flow. -/
structure SDKConfig where
  gameSecret : String
  hasOnMatchStart : Bool
  hasOnRequestTeams : Bool
  hasOnError : Bool
  debug : Bool

/-- Outcomes of the SDK's external collaborators for one `handleWebhook`
call: `verify` is `jwt.verify` (`none` when it throws: bad signature, expired,
malformed); `connectOk` is whether the transport reports open rather than
error; `onMatchStartThrows` is whether the user's match-start callback throws;
`teamsResult` is the team provider's outcome. -/
structure Oracles where
  verify : String → String → Option JwtClaims
  connectOk : Bool
  onMatchStartThrows : Bool
  teamsResult : Except Unit (List GameMatchTeam)

/-- Errors thrown by `handleWebhook`, tagged by origin. -/
inductive SDKError where
  | missingJwtData
  | invalidJwt
  | noTeamProvider
  | providerError
  | missingAuthToken
  | missingMatchId
  | missingWsUrl
  | transportError
  | callbackError
  | unknownCallType (s : String)
deriving DecidableEq, Repr

/-- The `Error(message)` string each `SDKError` is thrown with; transport,
provider and callback errors propagate the collaborator's own message. -/
def SDKError.message : SDKError → String
  | .missingJwtData => "Missing jwtData in webhook payload"
  | .invalidJwt => "Invalid JWT token"
  | .noTeamProvider => "No onRequestTeams callback configured"
  | .providerError => "<the team provider's own error>"
  | .missingAuthToken => "Missing authToken in webhook payload"
  | .missingMatchId => "Missing matchId in webhook payload"
  | .missingWsUrl => "Missing wsUrl in webhook payload"
  | .transportError => "<the transport's own error>"
  | .callbackError => "<the match-start callback's own error>"
  | .unknownCallType s => "Unknown webhook call type: " ++ s

/-- Successful `handleWebhook` result. -/
inductive WebhookOutcome where
  | client (c : MatchClient)
  | teams (ts : List GameMatchTeam)
deriving DecidableEq, Repr

/-- SDK-level observable events of one `handleWebhook` call, in order. -/
inductive SdkEvent where
  | connectAttempt (matchId wsUrl : String)
  | matchStartCallback (matchId : String)
  | requestTeamsCallback (matchId : String)
  | errorSink (e : SDKError)
deriving DecidableEq, Repr

/-- The `activeMatches : Map<string, MatchClient>` registry. -/
abbrev Registry := List (String × MatchClient)

/-- `getMatch(matchId)`. -/
def getMatch (reg : Registry) (matchId : String) : Option MatchClient :=
  reg.lookup matchId

/-- The close handler and error handler the SDK registers on a freshly
connected client (in that order) are the tokens 0 and 1. -/
def sdkCloseHandlerId : Nat := 0

def sdkErrorHandlerId : Nat := 1

/-- Construction of a `MatchClient` from a start-match payload. -/
def mkMatchClient (p : WebhookPayload) : MatchClient :=
  { authToken := p.authToken
    matchId := p.matchId
    wsUrl := p.wsUrl
    websocket := none
    connected := false
    messageQueue := []
    eventHandlers := ⟨[], [], []⟩
    stateIntervalId := none
    trackedState := none }

/-- The body of `handleWebhook` up to its outer `catch`. Returns the thrown
error or the returned value, the registry afterwards, and the SDK-level
events. The source stores the freshly created client in the registry before
awaiting `connect()`; because the registry row aliases the same JS object, the
row here carries the client's state as of the moment the call returns
(`on('close')`/`on('error')` are registered only after a successful connect
and callback). -/
def handleWebhookCore (cfg : SDKConfig) (orc : Oracles) (reg : Registry)
    (sock : Nat) (p : WebhookPayload) :
    Except SDKError WebhookOutcome × Registry × List SdkEvent :=
  if p.jwtData = "" then
    (.error .missingJwtData, reg, [])
  else
    match orc.verify p.jwtData cfg.gameSecret with
    | none => (.error .invalidJwt, reg, [])
    | some _ =>
      -- the decoded claim set is discarded: no comparison of the claimed
      -- matchId with the payload's declared matchId happens here
      match p.callType with
      | .requestTeams =>
        if !cfg.hasOnRequestTeams then
          (.error .noTeamProvider, reg, [])
        else
          match orc.teamsResult with
          | .ok ts => (.ok (.teams ts), reg, [.requestTeamsCallback p.matchId])
          | .error _ => (.error .providerError, reg, [.requestTeamsCallback p.matchId])
      | .startMatch =>
        if p.authToken = "" then
          (.error .missingAuthToken, reg, [])
        else if p.matchId = "" then
          (.error .missingMatchId, reg, [])
        else if p.wsUrl = "" then
          (.error .missingWsUrl, reg, [])
        else
          match reg.lookup p.matchId with
          | some existing => (.ok (.client existing), reg, [])
          | none =>
            let c0 := mkMatchClient p
            let att := c0.connectAttempt sock orc.connectOk
            let evc := [SdkEvent.connectAttempt p.matchId p.wsUrl]
            if att.1 then
              if cfg.hasOnMatchStart then
                if orc.onMatchStartThrows then
                  (.error .callbackError, reg ++ [(p.matchId, att.2.1)],
                    evc ++ [.matchStartCallback p.matchId])
                else
                  let c2 := (att.2.1.on .close sdkCloseHandlerId).on .error sdkErrorHandlerId
                  (.ok (.client c2), reg ++ [(p.matchId, c2)],
                    evc ++ [.matchStartCallback p.matchId])
              else
                let c2 := (att.2.1.on .close sdkCloseHandlerId).on .error sdkErrorHandlerId
                (.ok (.client c2), reg ++ [(p.matchId, c2)], evc)
            else
              (.error .transportError, reg ++ [(p.matchId, att.2.1)], evc)
      | .other s => (.error (.unknownCallType s), reg, [])

/-- `handleWebhook(payload)`: the core body wrapped in the outer `catch`,
which forwards any thrown error to `handleError` (the global error sink, when
configured) and rethrows it. -/
def handleWebhook (cfg : SDKConfig) (orc : Oracles) (reg : Registry)
    (sock : Nat) (p : WebhookPayload) :
    Except SDKError WebhookOutcome × Registry × List SdkEvent :=
  match handleWebhookCore cfg orc reg sock p with
  | (.error e, reg1, evs) =>
    (.error e, reg1, evs ++ (if cfg.hasOnError then [SdkEvent.errorSink e] else []))
  | (.ok r, reg1, evs) => (.ok r, reg1, evs)

/-- Coherence of the registry: every stored session's `matchId` equals its
key. `handleWebhook` only ever stores a session under its own `matchId`, so
every registry reachable through the SDK satisfies this. -/
def RegCoherent (reg : Registry) : Prop :=
  ∀ k c, reg.lookup k = some c → c.matchId = k

section Helpers

/-- Specification of the queue-flushing loop in its (only) call context:
when the client is connected with a socket handle, the loop empties the queue
and writes each queued message to the transport, in queue order. -/
theorem flushFuel_spec (q : List OutgoingMessage) :
    ∀ (c : MatchClient) (sock : Nat), c.connected = true → c.websocket = some sock →
      c.messageQueue = q →
      MatchClient.flushFuel q.length c
        = ({ c with messageQueue := [] }, q.map Effect.transportSend) := by
  induction q with
  | nil =>
    intro c sock hc hw hq
    obtain ⟨a, mI, w, ws, cn, mq, eh, si, ts⟩ := c
    simp only at hq
    subst hq
    rfl
  | cons m rest ih =>
    intro c sock hc hw hq
    have hstep : MatchClient.send { c with messageQueue := rest } m
        = ({ c with messageQueue := rest }, [Effect.transportSend m]) := by
      simp [MatchClient.send, hc, hw]
    have hrec := ih { c with messageQueue := rest } sock (by simp [hc]) (by simp [hw]) rfl
    show MatchClient.flushFuel (rest.length + 1) c = _
    unfold MatchClient.flushFuel
    rw [hq]
    simp only [hstep, hrec]
    simp

/-- Transport writes of a block of handler invocations: none. -/
theorem transportWrites_invoke (e : EventName) (hs : List Nat) :
    transportWrites (hs.map (Effect.invokeHandler e)) = [] := by
  induction hs with
  | nil => rfl
  | cons h t _ => simp [transportWrites, List.filterMap_cons]

/-- Transport writes of a block of sends: the messages themselves. -/
theorem transportWrites_sends (q : List OutgoingMessage) :
    transportWrites (q.map Effect.transportSend) = q := by
  induction q with
  | nil => rfl
  | cons m t ih => simpa [transportWrites, List.filterMap_cons] using ih

/-- Transport writes distribute over effect concatenation. -/
theorem transportWrites_append (a b : List Effect) :
    transportWrites (a ++ b) = transportWrites a ++ transportWrites b := by
  simp [transportWrites, List.filterMap_append]

/-- Full behaviour of the transport open handler: the connected flag is set,
the authentication message is written first, then every queued message in
queue order, the queue is emptied, and the `connect` handlers fire. -/
theorem handleOpen_spec (c : MatchClient) (sock : Nat) (hw : c.websocket = some sock) :
    c.handleOpen
      = ({ c with connected := true, messageQueue := [] },
         Effect.transportSend (.authenticate c.authToken)
           :: (c.messageQueue.map Effect.transportSend
              ++ c.eventHandlers.connectHs.map (Effect.invokeHandler .connect))) := by
  have hauth : ({ c with connected := true } : MatchClient).authenticate
      = ({ c with connected := true }, [Effect.transportSend (.authenticate c.authToken)]) := by
    simp [MatchClient.authenticate, MatchClient.send, hw]
  have hflush := flushFuel_spec c.messageQueue { c with connected := true } sock
    (by simp) (by simp [hw]) rfl
  unfold MatchClient.handleOpen MatchClient.flushMessageQueue
  simp only [hauth, hflush]
  simp [MatchClient.emitEffects, EventHandlers.get]

/-- Lookup after inserting a fresh key at the tail of the registry. -/
theorem lookup_append_fresh (k : String) (c : MatchClient) :
    ∀ reg : Registry, reg.lookup k = none → (reg ++ [(k, c)]).lookup k = some c := by
  intro reg
  induction reg with
  | nil =>
    intro _
    simp [List.lookup]
  | cons hd tl ih =>
    intro h
    obtain ⟨hk, hv⟩ := hd
    by_cases hb : (k == hk) = true
    · simp [List.lookup, hb] at h
    · simp only [List.cons_append, List.lookup, hb] at h ⊢
      exact ih h

end Helpers

section ClientClaims

/-- C4: every message issued via `beginMatch`, `sendStateUpdate` or `endMatch`
while the connected flag is false is appended to the queue and no message
reaches the transport; when the transport reports open, the authentication
message is written first and then every queued message is delivered exactly
once in enqueue order, leaving the queue empty. -/
theorem c4_queue_fifo_invariant (c : MatchClient) (sock : Nat) (frames : List SimFrame)
    (hconn : c.connected = false) (hw : c.websocket = some sock) :
    c.beginMatch = ({ c with messageQueue := c.messageQueue ++ [.initFrames] }, [])
    ∧ c.sendStateUpdate frames
        = ({ c with messageQueue := c.messageQueue ++ [.sceneFrames frames] }, [])
    ∧ c.endMatch = ({ c with messageQueue := c.messageQueue ++ [.endFrames] }, [])
    ∧ transportWrites c.handleOpen.2
        = .authenticate c.authToken :: c.messageQueue
    ∧ c.handleOpen.1.messageQueue = [] := by
  refine ⟨?_, ?_, ?_, ?_, ?_⟩
  · simp [MatchClient.beginMatch, MatchClient.send, hconn]
  · simp [MatchClient.sendStateUpdate, MatchClient.send, hconn]
  · simp [MatchClient.endMatch, MatchClient.send, hconn]
  · rw [handleOpen_spec c sock hw]
    simp [transportWrites, List.filterMap_cons, List.filterMap_append,
      transportWrites_sends, transportWrites_invoke]
    have h1 := transportWrites_sends c.messageQueue
    have h2 := transportWrites_invoke .connect c.eventHandlers.connectHs
    simp [transportWrites] at h1 h2
    simp [h1, h2]
  · rw [handleOpen_spec c sock hw]

/-- Concrete disconnected client with one queued message, for the C4 witness. -/
def c4Client : MatchClient :=
  { authToken := "tok", matchId := "m1", wsUrl := "ws", websocket := some 5,
    connected := false, messageQueue := [.initFrames],
    eventHandlers := ⟨[], [], []⟩, stateIntervalId := none, trackedState := none }

theorem c4_witness :
    c4Client.connected = false ∧ c4Client.websocket = some 5
    ∧ (c4Client.beginMatch
        = ({ c4Client with messageQueue := c4Client.messageQueue ++ [.initFrames] }, [])
      ∧ c4Client.sendStateUpdate []
          = ({ c4Client with messageQueue := c4Client.messageQueue ++ [.sceneFrames []] }, [])
      ∧ c4Client.endMatch
          = ({ c4Client with messageQueue := c4Client.messageQueue ++ [.endFrames] }, [])
      ∧ transportWrites c4Client.handleOpen.2
          = .authenticate c4Client.authToken :: c4Client.messageQueue
      ∧ c4Client.handleOpen.1.messageQueue = []) :=
  ⟨rfl, rfl, c4_queue_fifo_invariant c4Client 5 [] rfl rfl⟩

/-- Concrete session with one registered error handler (token 7), used for the
inbound-handling claims. -/
def c6Client : MatchClient :=
  { authToken := "tok", matchId := "m1", wsUrl := "ws", websocket := some 3,
    connected := true, messageQueue := [],
    eventHandlers := ⟨[], [], [7]⟩, stateIntervalId := none, trackedState := none }

/-- C6 counterexample: inbound transport data on which JSON.parse throws is
not ignored silently; the catch block emits an `error` event, so a registered
error handler is invoked. -/
theorem c6_counterexample :
    (c6Client.handleMessage none).2 = [Effect.invokeHandler .error 7]
    ∧ (c6Client.handleMessage none).2 ≠ [] := by
  exact ⟨rfl, by decide⟩

/-- C6 (amended): the inbound handler never throws and never mutates session
state; a payload that parses (to any JSON value, object or not) emits no
event, while a payload on which parsing throws emits an `error` event to the
registered error handlers, in registration order. -/
theorem c6_amended_inbound_handling (c : MatchClient) (d : Option Json) :
    c.handleMessage d
      = (c, match d with
            | none => c.eventHandlers.errorHs.map (Effect.invokeHandler .error)
            | some _ => []) := by
  cases d with
  | none => rfl
  | some v => simp [MatchClient.handleMessage]

/-- Concrete connected client used for the closed-state claims: it is first
disconnected, then the lifecycle calls are replayed on the closed session. -/
def c7Client : MatchClient :=
  { authToken := "tok", matchId := "m1", wsUrl := "ws", websocket := some 2,
    connected := true, messageQueue := [],
    eventHandlers := ⟨[], [], []⟩, stateIntervalId := none, trackedState := none }

/-- C7 counterexample: on a closed session, `beginMatch` does not leave the
observable state unchanged — the message is appended to the message queue. -/
theorem c7_counterexample :
    ((c7Client.disconnect).1.beginMatch).1 ≠ (c7Client.disconnect).1
    ∧ ((c7Client.disconnect).1.beginMatch).1.messageQueue = [.initFrames] := by
  exact ⟨by decide, rfl⟩

/-- C7 (amended): on a session whose connected flag is false (after
`disconnect()` or the transport closing), `beginMatch`, `sendStateUpdate` and
`endMatch` never reach the transport (no effect is produced), but the calls
are not dropped: each appends its message to the message queue, which is the
only state change. -/
theorem c7_amended_closed_sends_queued (c : MatchClient) (frames : List SimFrame)
    (hc : c.connected = false) :
    c.beginMatch = ({ c with messageQueue := c.messageQueue ++ [.initFrames] }, [])
    ∧ c.sendStateUpdate frames
        = ({ c with messageQueue := c.messageQueue ++ [.sceneFrames frames] }, [])
    ∧ c.endMatch = ({ c with messageQueue := c.messageQueue ++ [.endFrames] }, []) := by
  refine ⟨?_, ?_, ?_⟩ <;>
    simp [MatchClient.beginMatch, MatchClient.sendStateUpdate, MatchClient.endMatch,
      MatchClient.send, hc]

theorem c7_amended_witness :
    ((c7Client.disconnect).1.connected = false)
    ∧ ((c7Client.disconnect).1.beginMatch
        = ({ (c7Client.disconnect).1 with
              messageQueue := (c7Client.disconnect).1.messageQueue ++ [.initFrames] }, [])
      ∧ (c7Client.disconnect).1.sendStateUpdate []
          = ({ (c7Client.disconnect).1 with
                messageQueue := (c7Client.disconnect).1.messageQueue ++ [.sceneFrames []] }, [])
      ∧ (c7Client.disconnect).1.endMatch
          = ({ (c7Client.disconnect).1 with
                messageQueue := (c7Client.disconnect).1.messageQueue ++ [.endFrames] }, [])) :=
  ⟨rfl, c7_amended_closed_sends_queued (c7Client.disconnect).1 [] rfl⟩

/-- C8: after `disconnect()` on a session with an armed tracking interval, the
interval is cancelled and the tracked-state reference cleared, a timer firing
sends nothing and changes nothing, and a second `disconnect()` is a no-op. -/
theorem c8_disconnect_stops_tracking (c : MatchClient) (t : Nat)
    (heap : Nat → SimFrame) (ht : c.stateIntervalId = some t) :
    (c.disconnect).1.stateIntervalId = none
    ∧ (c.disconnect).1.trackedState = none
    ∧ (c.disconnect).1.timerTick heap = ((c.disconnect).1, [])
    ∧ (c.disconnect).1.disconnect = ((c.disconnect).1, []) := by
  cases hw : c.websocket with
  | none =>
    refine ⟨?_, ?_, ?_, ?_⟩ <;>
      simp [MatchClient.disconnect, MatchClient.timerTick, ht, hw]
  | some s =>
    refine ⟨?_, ?_, ?_, ?_⟩ <;>
      simp [MatchClient.disconnect, MatchClient.timerTick, ht, hw]

/-- Concrete tracking session for the C8 witness: connected, interval armed
on timer 1, tracking cell 0. -/
def c8Client : MatchClient :=
  { authToken := "tok", matchId := "m1", wsUrl := "ws", websocket := some 2,
    connected := true, messageQueue := [],
    eventHandlers := ⟨[], [], []⟩, stateIntervalId := some 1, trackedState := some 0 }

/-- Concrete heap for the tracking claims. -/
def c8Heap : Nat → SimFrame := fun _ =>
  { transforms := [], state := none, timeSinceLastFrame := 0 }

theorem c8_witness :
    c8Client.stateIntervalId = some 1
    ∧ ((c8Client.disconnect).1.stateIntervalId = none
      ∧ (c8Client.disconnect).1.trackedState = none
      ∧ (c8Client.disconnect).1.timerTick c8Heap = ((c8Client.disconnect).1, [])
      ∧ (c8Client.disconnect).1.disconnect = ((c8Client.disconnect).1, [])) :=
  ⟨rfl, c8_disconnect_stops_tracking c8Client 1 c8Heap rfl⟩

/-- C9: `trackState` stores the state by reference: the tracked-state field
holds the reference, and a timer firing sends a single-frame state update
whose frame is the referenced cell's contents at the moment of firing — for
any heap contents at that moment, hence including any mutation made after
`trackState` was called. -/
theorem c9_track_state_by_reference (c : MatchClient) (r newTimerId : Nat)
    (intervalMs : Int) (sock : Nat) (heapAtFire : Nat → SimFrame)
    (hc : c.connected = true) (hw : c.websocket = some sock) :
    (c.trackState r intervalMs newTimerId).trackedState = some r
    ∧ (c.trackState r intervalMs newTimerId).timerTick heapAtFire
        = (c.trackState r intervalMs newTimerId,
           [Effect.transportSend (.sceneFrames [heapAtFire r])]) := by
  constructor
  · rfl
  · simp [MatchClient.trackState, MatchClient.timerTick, MatchClient.sendStateUpdate,
      MatchClient.send, hc, hw]

/-- Concrete connected client for the C9 witness. -/
def c9Client : MatchClient :=
  { authToken := "tok", matchId := "m1", wsUrl := "ws", websocket := some 2,
    connected := true, messageQueue := [],
    eventHandlers := ⟨[], [], []⟩, stateIntervalId := none, trackedState := none }

/-- Heap contents of cell 0 as of the timer firing, after the caller mutated
the shared state object (score bumped to 10). -/
def c9MutatedHeap : Nat → SimFrame := fun _ =>
  { transforms := [],
    state := some { scores := [("x", 10)], announcedEvents := [], time := none },
    timeSinceLastFrame := 0 }

theorem c9_witness :
    c9Client.connected = true ∧ c9Client.websocket = some 2
    ∧ ((c9Client.trackState 0 50 1).trackedState = some 0
      ∧ (c9Client.trackState 0 50 1).timerTick c9MutatedHeap
          = (c9Client.trackState 0 50 1,
             [Effect.transportSend (.sceneFrames [c9MutatedHeap 0])])) :=
  ⟨rfl, rfl, c9_track_state_by_reference c9Client 0 1 50 2 c9MutatedHeap rfl rfl⟩

end ClientClaims

section SdkClaims

/-- The state of a freshly created client after `connect()` resolved inside
`handleWebhook`: socket open, connected, authentication already written, queue
empty, no handlers registered yet. -/
def connectedClient (p : WebhookPayload) (sock : Nat) : MatchClient :=
  { authToken := p.authToken, matchId := p.matchId, wsUrl := p.wsUrl,
    websocket := some sock, connected := true, messageQueue := [],
    eventHandlers := ⟨[], [], []⟩, stateIntervalId := none, trackedState := none }

/-- The client as returned by a successful `handleWebhook` (and, by JS
aliasing, as held by its registry row): the SDK's close and error handlers
have been registered. -/
def registeredClient (p : WebhookPayload) (sock : Nat) : MatchClient :=
  ((connectedClient p sock).on .close sdkCloseHandlerId).on .error sdkErrorHandlerId

/-- The client left behind by a `connect()` that rejected: socket constructed
but never opened, not connected, and no handlers registered. -/
def failedClient (p : WebhookPayload) (sock : Nat) : MatchClient :=
  { mkMatchClient p with websocket := some sock }

theorem mkClient_connect_ok (p : WebhookPayload) (sock : Nat) :
    (mkMatchClient p).connectAttempt sock true
      = (true, connectedClient p sock,
         [Effect.transportOpenReq p.wsUrl,
          Effect.transportSend (.authenticate p.authToken)]) := rfl

theorem mkClient_connect_fail (p : WebhookPayload) (sock : Nat) :
    (mkMatchClient p).connectAttempt sock false
      = (false, failedClient p sock, [Effect.transportOpenReq p.wsUrl]) := rfl

/-- Computation of the fresh `start_match` path when the connection opens and
the match-start callback (if configured) returns. -/
theorem handleWebhookCore_fresh_ok (cfg : SDKConfig) (orc : Oracles)
    (reg : Registry) (sock : Nat) (p : WebhookPayload) (cl : JwtClaims)
    (hct : p.callType = .startMatch) (hjwt : p.jwtData ≠ "")
    (hver : orc.verify p.jwtData cfg.gameSecret = some cl)
    (hauth : p.authToken ≠ "") (hmid : p.matchId ≠ "") (hurl : p.wsUrl ≠ "")
    (hreg : reg.lookup p.matchId = none)
    (hconn : orc.connectOk = true) (hcb : orc.onMatchStartThrows = false) :
    handleWebhookCore cfg orc reg sock p
      = (.ok (.client (registeredClient p sock)),
         reg ++ [(p.matchId, registeredClient p sock)],
         SdkEvent.connectAttempt p.matchId p.wsUrl
           :: (if cfg.hasOnMatchStart then [SdkEvent.matchStartCallback p.matchId] else [])) := by
  by_cases hms : cfg.hasOnMatchStart <;>
    simp [handleWebhookCore, hjwt, hver, hct, hauth, hmid, hurl, hreg, hconn, hcb, hms,
      mkClient_connect_ok, registeredClient]

/-- Computation of the fresh `start_match` path when the connection attempt
rejects. -/
theorem handleWebhookCore_fresh_fail (cfg : SDKConfig) (orc : Oracles)
    (reg : Registry) (sock : Nat) (p : WebhookPayload) (cl : JwtClaims)
    (hct : p.callType = .startMatch) (hjwt : p.jwtData ≠ "")
    (hver : orc.verify p.jwtData cfg.gameSecret = some cl)
    (hauth : p.authToken ≠ "") (hmid : p.matchId ≠ "") (hurl : p.wsUrl ≠ "")
    (hreg : reg.lookup p.matchId = none)
    (hconn : orc.connectOk = false) :
    handleWebhookCore cfg orc reg sock p
      = (.error .transportError, reg ++ [(p.matchId, failedClient p sock)],
         [SdkEvent.connectAttempt p.matchId p.wsUrl]) := by
  simp [handleWebhookCore, hjwt, hver, hct, hauth, hmid, hurl, hreg, hconn,
    mkClient_connect_fail]

theorem emptyRegCoherent : RegCoherent [] := by
  intro k c h
  exact Option.noConfusion h

/-- Standard configuration for the concrete webhook scenarios. -/
def stdConfig : SDKConfig :=
  { gameSecret := "sec", hasOnMatchStart := true, hasOnRequestTeams := false,
    hasOnError := false, debug := false }

/-- Oracle set for a healthy call: the assertion "good" verifies under secret
"sec" and carries the matchId claim "m1"; the transport opens; the callbacks
return normally. -/
def stdOracles : Oracles :=
  { verify := fun j s => if j == "good" && s == "sec" then some ⟨some "m1"⟩ else none,
    connectOk := true, onMatchStartThrows := false, teamsResult := .ok [] }

/-- A well-formed, correctly signed `start_match` payload for match "m1". -/
def stdPayload : WebhookPayload :=
  { callType := .startMatch, jwtData := "good", matchId := "m1",
    authToken := "tok", wsUrl := "ws" }

/-- C2: for every activation payload carrying an assertion that fails
signature verification (tampered or expired: `jwt.verify` throws),
`handleWebhook` rejects with the invalid-credential error ("Invalid JWT
token") and the registry is returned unchanged — no entry is created and no
existing entry is modified. -/
theorem c2_invalid_assertion_rejected (cfg : SDKConfig)
    (orc : Oracles) (reg : Registry) (sock : Nat) (p : WebhookPayload)
    (hjwt : p.jwtData ≠ "")
    (hver : orc.verify p.jwtData cfg.gameSecret = none) :
    handleWebhook cfg orc reg sock p
      = (.error .invalidJwt, reg,
         if cfg.hasOnError then [SdkEvent.errorSink .invalidJwt] else []) := by
  unfold handleWebhook handleWebhookCore
  rw [if_neg hjwt, hver]
  simp

/-- Oracle set under which every assertion fails verification. -/
def rejectingOracles : Oracles :=
  { verify := fun _ _ => none, connectOk := true, onMatchStartThrows := false,
    teamsResult := .ok [] }

/-- A registry holding a pre-existing session for match "m0". -/
def preRegistry : Registry :=
  [("m0", mkMatchClient { callType := .startMatch, jwtData := "j", matchId := "m0",
                          authToken := "a", wsUrl := "w" })]

theorem c2_witness :
    stdPayload.jwtData ≠ ""
    ∧ rejectingOracles.verify stdPayload.jwtData stdConfig.gameSecret = none
    ∧ handleWebhook stdConfig rejectingOracles preRegistry 0 stdPayload
        = (.error .invalidJwt, preRegistry,
           if stdConfig.hasOnError then [SdkEvent.errorSink .invalidJwt] else []) :=
  ⟨by decide, rfl,
    c2_invalid_assertion_rejected stdConfig rejectingOracles preRegistry 0 stdPayload
      (by decide) rfl⟩

/-- C3: idempotent re-delivery — when the registry already holds a session
for the payload's matchId, a valid `start_match` re-delivery resolves to that
identical session, mutates nothing, opens no new connection and invokes no
match-start callback (no SDK event at all is produced). -/
theorem c3_idempotent_redelivery (cfg : SDKConfig) (orc : Oracles)
    (reg : Registry) (sock : Nat) (p : WebhookPayload) (cl : JwtClaims)
    (s : MatchClient)
    (hct : p.callType = .startMatch) (hjwt : p.jwtData ≠ "")
    (hver : orc.verify p.jwtData cfg.gameSecret = some cl)
    (hauth : p.authToken ≠ "") (hmid : p.matchId ≠ "") (hurl : p.wsUrl ≠ "")
    (hreg : reg.lookup p.matchId = some s) :
    handleWebhook cfg orc reg sock p = (.ok (.client s), reg, []) := by
  unfold handleWebhook handleWebhookCore
  rw [if_neg hjwt, hver, hct, if_neg hauth, if_neg hmid, if_neg hurl, hreg]

/-- The registry after a first successful delivery of `stdPayload`. -/
def stdRegistryAfterFirst : Registry :=
  [("m1", registeredClient stdPayload 5)]

theorem c3_witness :
    stdRegistryAfterFirst.lookup stdPayload.matchId = some (registeredClient stdPayload 5)
    ∧ handleWebhook stdConfig stdOracles stdRegistryAfterFirst 9 stdPayload
        = (.ok (.client (registeredClient stdPayload 5)), stdRegistryAfterFirst, []) :=
  ⟨rfl,
    c3_idempotent_redelivery stdConfig stdOracles stdRegistryAfterFirst 9 stdPayload
      ⟨some "m1"⟩ (registeredClient stdPayload 5) rfl (by decide) rfl (by decide)
      (by decide) (by decide) rfl⟩

/-- C5: a `start_match` payload with a correctly signed assertion and all
required fields present, delivered while the transport opens and the
match-start callback returns, resolves to a session whose `matchId` equals
the payload's `matchId` (over any coherent registry). -/
theorem c5_resolves_with_declared_match_id (cfg : SDKConfig) (orc : Oracles)
    (reg : Registry) (sock : Nat) (p : WebhookPayload) (cl : JwtClaims)
    (hct : p.callType = .startMatch) (hjwt : p.jwtData ≠ "")
    (hver : orc.verify p.jwtData cfg.gameSecret = some cl)
    (hauth : p.authToken ≠ "") (hmid : p.matchId ≠ "") (hurl : p.wsUrl ≠ "")
    (hconn : orc.connectOk = true) (hcb : orc.onMatchStartThrows = false)
    (hco : RegCoherent reg) :
    ∃ c : MatchClient,
      (handleWebhook cfg orc reg sock p).1 = .ok (.client c)
      ∧ c.matchId = p.matchId := by
  cases hreg : reg.lookup p.matchId with
  | some existing =>
    refine ⟨existing, ?_, hco _ _ hreg⟩
    unfold handleWebhook handleWebhookCore
    rw [if_neg hjwt, hver, hct, if_neg hauth, if_neg hmid, if_neg hurl, hreg]
  | none =>
    refine ⟨registeredClient p sock, ?_, rfl⟩
    unfold handleWebhook
    rw [handleWebhookCore_fresh_ok cfg orc reg sock p cl hct hjwt hver hauth hmid
      hurl hreg hconn hcb]

theorem c5_witness :
    stdOracles.verify stdPayload.jwtData stdConfig.gameSecret = some ⟨some "m1"⟩
    ∧ RegCoherent []
    ∧ ∃ c : MatchClient,
        (handleWebhook stdConfig stdOracles [] 4 stdPayload).1 = .ok (.client c)
        ∧ c.matchId = stdPayload.matchId :=
  ⟨rfl, emptyRegCoherent,
    c5_resolves_with_declared_match_id stdConfig stdOracles [] 4 stdPayload
      ⟨some "m1"⟩ rfl (by decide) rfl (by decide) (by decide) (by decide) rfl rfl
      emptyRegCoherent⟩

/-- C10 (implicit): the session is registered before the connection attempt,
so a `connect()` rejection leaves the rejected call's never-connected session
in the registry; `getMatch` then returns it, and a re-delivery for the same
matchId resolves to that unconnected session without any new connection
attempt (the re-delivery produces no SDK event at all). -/
theorem c10_failed_connect_leaves_registration (cfg : SDKConfig) (orc : Oracles)
    (reg : Registry) (sock sock2 : Nat) (p : WebhookPayload) (cl : JwtClaims)
    (hct : p.callType = .startMatch) (hjwt : p.jwtData ≠ "")
    (hver : orc.verify p.jwtData cfg.gameSecret = some cl)
    (hauth : p.authToken ≠ "") (hmid : p.matchId ≠ "") (hurl : p.wsUrl ≠ "")
    (hreg : reg.lookup p.matchId = none)
    (hconn : orc.connectOk = false) :
    handleWebhook cfg orc reg sock p
      = (.error .transportError, reg ++ [(p.matchId, failedClient p sock)],
         SdkEvent.connectAttempt p.matchId p.wsUrl
           :: (if cfg.hasOnError then [SdkEvent.errorSink .transportError] else []))
    ∧ (failedClient p sock).connected = false
    ∧ getMatch (reg ++ [(p.matchId, failedClient p sock)]) p.matchId
        = some (failedClient p sock)
    ∧ handleWebhook cfg orc (reg ++ [(p.matchId, failedClient p sock)]) sock2 p
        = (.ok (.client (failedClient p sock)),
           reg ++ [(p.matchId, failedClient p sock)], []) := by
  have hlook := lookup_append_fresh p.matchId (failedClient p sock) reg hreg
  refine ⟨?_, rfl, ?_, ?_⟩
  · unfold handleWebhook
    rw [handleWebhookCore_fresh_fail cfg orc reg sock p cl hct hjwt hver hauth hmid
      hurl hreg hconn]
    rfl
  · show (reg ++ [(p.matchId, failedClient p sock)]).lookup p.matchId
        = some (failedClient p sock)
    exact hlook
  · unfold handleWebhook handleWebhookCore
    rw [if_neg hjwt, hver, hct, if_neg hauth, if_neg hmid, if_neg hurl, hlook]

/-- Oracle set with a valid signature but a transport that reports an error
while opening. -/
def failingConnectOracles : Oracles :=
  { verify := fun j s => if j == "good" && s == "sec" then some ⟨some "m1"⟩ else none,
    connectOk := false, onMatchStartThrows := false, teamsResult := .ok [] }

theorem c10_witness :
    failingConnectOracles.connectOk = false
    ∧ (handleWebhook stdConfig failingConnectOracles [] 3 stdPayload
        = (.error .transportError, [(stdPayload.matchId, failedClient stdPayload 3)],
           SdkEvent.connectAttempt stdPayload.matchId stdPayload.wsUrl
             :: (if stdConfig.hasOnError then [SdkEvent.errorSink .transportError] else []))
      ∧ (failedClient stdPayload 3).connected = false
      ∧ getMatch [(stdPayload.matchId, failedClient stdPayload 3)] stdPayload.matchId
          = some (failedClient stdPayload 3)
      ∧ handleWebhook stdConfig failingConnectOracles
            [(stdPayload.matchId, failedClient stdPayload 3)] 8 stdPayload
          = (.ok (.client (failedClient stdPayload 3)),
             [(stdPayload.matchId, failedClient stdPayload 3)], [])) :=
  ⟨rfl,
    c10_failed_connect_leaves_registration stdConfig failingConnectOracles [] 3 8
      stdPayload ⟨some "m1"⟩ rfl (by decide) rfl (by decide) (by decide) (by decide)
      rfl rfl⟩

/-- Configuration for the mismatched-assertion scenario. -/
def c1Config : SDKConfig :=
  { gameSecret := "sec", hasOnMatchStart := false, hasOnRequestTeams := false,
    hasOnError := false, debug := false }

/-- Oracle under which the assertion "jwt-for-A" is correctly signed for
secret "sec" and decodes to the claim set carrying matchId "A". -/
def c1Oracles : Oracles :=
  { verify := fun j s => if j == "jwt-for-A" && s == "sec" then some ⟨some "A"⟩ else none,
    connectOk := true, onMatchStartThrows := false, teamsResult := .ok [] }

/-- A `start_match` payload declaring matchId "B" while carrying the
assertion signed for match "A". -/
def c1Payload : WebhookPayload :=
  { callType := .startMatch, jwtData := "jwt-for-A", matchId := "B",
    authToken := "tok", wsUrl := "ws" }

/-- C1, evaluated at the failing input: the assertion decodes and carries
matchId "A" while the call declares matchId "B", yet the credential
verification step does not fail — `handleWebhook` verifies only the
signature, discards the decoded claim set, accepts the call and registers a
session for "B". (The spec, and the earlier revision of `handleWebhook` in
sdk.ts which compared `decoded.matchId` with `payload.matchId`, require the
generic invalid-credential rejection here.) -/
theorem c1_mismatched_assertion_accepted :
    c1Oracles.verify c1Payload.jwtData c1Config.gameSecret = some ⟨some "A"⟩
    ∧ some c1Payload.matchId ≠ (⟨some "A"⟩ : JwtClaims).claimedMatchId
    ∧ (handleWebhook c1Config c1Oracles [] 0 c1Payload).1
        = .ok (.client (registeredClient c1Payload 0))
    ∧ (handleWebhook c1Config c1Oracles [] 0 c1Payload).2.1
        = [("B", registeredClient c1Payload 0)] :=
  ⟨rfl, by decide, rfl, rfl⟩

end SdkClaims

end HypeDuelSdk
